import Mathlib

/-!
# Verification of the claude-code-log-tools log-store schema

The repository's single source file, `src/claude_code_log_tools/schema.py`,
consists of one PostgreSQL DDL string (`SCHEMA`) declaring four tables
(`sessions`, `messages`, `content_blocks`, `import_metadata`), their
constraints (NOT NULL, UNIQUE, foreign keys with ON DELETE CASCADE, a partial
unique index on `messages.uuid`, a GENERATED ALWAYS ... STORED tsvector
column) and indexes.

We embed the schema shallowly: each table becomes a list of typed rows inside
a `Store`, and each statement-level operation (INSERT, DELETE, UPDATE) becomes
a function on `Store` that enforces exactly the declared constraints, in the
order PostgreSQL enforces them (datatype input conversion, then NOT NULL at
tuple formation, then unique-index checks, then foreign-key checks).

The PostgreSQL builtin `to_tsvector('english', ·)` is an external function of
the storage engine; we keep it as an explicit parameter `tsv : String → String`
of the operations that need it, so every theorem about the generated column
holds for any such function.

`SERIAL` columns are modelled by per-table counters starting at 1.
`TIMESTAMPTZ` values are modelled as integers; `JSONB` payloads as strings
(their internal structure is irrelevant to every constraint in the schema).
-/

/-- Errors reported by the storage engine for the constraints declared in
`SCHEMA`: unique-index violations, NOT NULL violations, foreign-key
violations, and datatype input errors (e.g. a non-UUID string supplied for
the `UUID`-typed column `sessions.session_uuid`). -/
inductive DBError where
  | uniqueViolation
  | notNullViolation
  | foreignKeyViolation
  | invalidTextRepresentation
deriving DecidableEq, Repr

/-- Hexadecimal digit test, as accepted by PostgreSQL's `uuid_in`. -/
def isHexDigit (c : Char) : Bool :=
  c.isDigit || ('a' ≤ c && c ≤ 'f') || ('A' ≤ c && c ≤ 'F')

/-- Core scanner for PostgreSQL's `uuid` input syntax: exactly 32 hex digits,
with hyphens permitted only between groups of four digits (PostgreSQL accepts
"omitting some or all hyphens, adding a hyphen after any group of four
digits").  `n` counts hex digits seen so far, `lastHyphen` forbids a second
consecutive hyphen.  Returns the lower-cased digits when the input is valid. -/
def uuidScan : List Char → Nat → Bool → Option (List Char)
  | [], n, _ => if n = 32 then some [] else none
  | c :: cs, n, lastHyphen =>
    if c = '-' then
      if n % 4 = 0 && n ≠ 0 && n ≠ 32 && !lastHyphen then
        uuidScan cs n true
      else
        none
    else if isHexDigit c then
      if n < 32 then
        (uuidScan cs (n + 1) false).map (fun ds => c.toLower :: ds)
      else
        none
    else
      none

/-- PostgreSQL `uuid` input conversion: an optional pair of surrounding
braces around the hyphen-grouped hex form.  Returns the normalized value
(32 lower-case hex digits) on success, `none` on a datatype input error. -/
def parseUuid (s : String) : Option String :=
  let cs := s.data
  let core? : Option (List Char) :=
    if cs.head? = some '{' then
      if cs.getLast? = some '}' then some ((cs.drop 1).dropLast) else none
    else
      some cs
  match core? with
  | none => none
  | some core => (uuidScan core 0 false).map (fun ds => String.mk ds)

/-- Whether a string is acceptable input for the PostgreSQL `uuid` type. -/
def isUuidFormat (s : String) : Bool := (parseUuid s).isSome

/-- One row of `sessions`.  `session_uuid` is stored in normalized form (the
`UUID` datatype normalizes case and hyphenation).  `created_at`/`updated_at`
`DEFAULT CURRENT_TIMESTAMP`; token totals `INT DEFAULT 0`. -/
structure SessionRow where
  id : Nat
  session_uuid : String
  project_path : Option String
  summary : Option String
  created_at : Int
  updated_at : Int
  total_input_tokens : Int
  total_output_tokens : Int
deriving DecidableEq, Repr

/-- One row of `messages`.  `uuid` is a plain nullable `TEXT` column;
`type` is `TEXT NOT NULL`; the token columns are nullable `INT` with no
default. -/
structure MessageRow where
  id : Nat
  session_id : Nat
  uuid : Option String
  type : String
  role : Option String
  timestamp : Option Int
  cwd : Option String
  input_tokens : Option Int
  output_tokens : Option Int
  version : Option String
deriving DecidableEq, Repr

/-- One row of `content_blocks`.  `content_tsvector` is the
`GENERATED ALWAYS AS (to_tsvector('english', COALESCE(text_content, '')))
STORED` column: it is part of the stored row but never part of any insert
payload. -/
structure ContentBlockRow where
  id : Nat
  message_id : Nat
  block_index : Int
  block_type : String
  text_content : Option String
  tool_name : Option String
  tool_input : Option String
  tool_use_id : Option String
  content_tsvector : String
deriving DecidableEq, Repr

/-- One row of `import_metadata` (`project_path TEXT PRIMARY KEY`,
`last_import_timestamp TIMESTAMPTZ NOT NULL`). -/
structure ImportMetadataRow where
  project_path : String
  last_import_timestamp : Int
deriving DecidableEq, Repr

/-- The database state: one list of rows per table of `SCHEMA`, plus the
next value of each `SERIAL` sequence. -/
structure Store where
  sessions : List SessionRow
  messages : List MessageRow
  content_blocks : List ContentBlockRow
  import_metadata : List ImportMetadataRow
  nextSessionId : Nat
  nextMessageId : Nat
  nextBlockId : Nat
deriving DecidableEq, Repr

/-- The state created by running `SCHEMA` on a fresh database: all tables
empty, every `SERIAL` sequence at 1. -/
def emptyStore : Store := ⟨[], [], [], [], 1, 1, 1⟩

/-- An `INSERT INTO sessions` payload.  A `none` field means the column was
omitted from the insert (so its DDL default applies, or NOT NULL fires). -/
structure SessionInsert where
  session_uuid : Option String
  project_path : Option String
  summary : Option String
  created_at : Option Int
  updated_at : Option Int
  total_input_tokens : Option Int
  total_output_tokens : Option Int
deriving DecidableEq, Repr

/-- An `INSERT INTO messages` payload.  `session_id` is always supplied (it
is the `NOT NULL` foreign key); `type` may be omitted, in which case the
`NOT NULL` constraint fires. -/
structure MessageInsert where
  session_id : Nat
  uuid : Option String
  type : Option String
  role : Option String
  timestamp : Option Int
  cwd : Option String
  input_tokens : Option Int
  output_tokens : Option Int
  version : Option String
deriving DecidableEq, Repr

/-- An `INSERT INTO content_blocks` payload.  There is deliberately no
`content_tsvector` field: the column is `GENERATED ALWAYS`, so callers can
never supply it. -/
structure ContentBlockInsert where
  message_id : Nat
  block_index : Option Int
  block_type : Option String
  text_content : Option String
  tool_name : Option String
  tool_input : Option String
  tool_use_id : Option String
deriving DecidableEq, Repr

/-- Model of `INSERT INTO sessions`.  `now` is `CURRENT_TIMESTAMP`, used for the
defaults of `created_at` and `updated_at`.  Checks, in PostgreSQL order:
`session_uuid` NOT NULL, `UUID` datatype input conversion, then the UNIQUE
constraint on `session_uuid`.  Token totals default to 0. -/
def insertSession (now : Int) (inp : SessionInsert) (s : Store) :
    Except DBError Store :=
  match inp.session_uuid with
  | none => .error .notNullViolation
  | some u =>
    match parseUuid u with
    | none => .error .invalidTextRepresentation
    | some nu =>
      if s.sessions.any (fun r => r.session_uuid = nu) then
        .error .uniqueViolation
      else
        .ok { s with
          sessions := s.sessions ++
            [⟨s.nextSessionId, nu, inp.project_path, inp.summary,
              inp.created_at.getD now, inp.updated_at.getD now,
              inp.total_input_tokens.getD 0, inp.total_output_tokens.getD 0⟩],
          nextSessionId := s.nextSessionId + 1 }

/-- Model of `INSERT INTO messages`.  Checks, in PostgreSQL order: `type` NOT NULL
(tuple formation), the partial unique index `idx_messages_uuid_unique`
(`ON messages(uuid) WHERE uuid IS NOT NULL`), then the foreign key
`session_id REFERENCES sessions(id)`.  The token columns have no default:
omitted values are stored as NULL. -/
def insertMessage (inp : MessageInsert) (s : Store) : Except DBError Store :=
  match inp.type with
  | none => .error .notNullViolation
  | some t =>
    if inp.uuid.isSome && s.messages.any (fun m => m.uuid = inp.uuid) then
      .error .uniqueViolation
    else if !(s.sessions.any (fun r => r.id = inp.session_id)) then
      .error .foreignKeyViolation
    else
      .ok { s with
        messages := s.messages ++
          [⟨s.nextMessageId, inp.session_id, inp.uuid, t, inp.role,
            inp.timestamp, inp.cwd, inp.input_tokens, inp.output_tokens,
            inp.version⟩],
        nextMessageId := s.nextMessageId + 1 }

/-- Model of `INSERT INTO content_blocks`.  Checks, in PostgreSQL order:
`block_index` NOT NULL, `block_type` NOT NULL, then the foreign key
`message_id REFERENCES messages(id)`.  The stored row's `content_tsvector`
is computed by the engine as `tsv (COALESCE(text_content, ''))`; no text
means the empty string is vectorized.  There is no unique constraint on
`(message_id, block_index)` anywhere in `SCHEMA`. -/
def insertContentBlock (tsv : String → String) (inp : ContentBlockInsert)
    (s : Store) : Except DBError Store :=
  match inp.block_index with
  | none => .error .notNullViolation
  | some bi =>
    match inp.block_type with
    | none => .error .notNullViolation
    | some bt =>
      if !(s.messages.any (fun m => m.id = inp.message_id)) then
        .error .foreignKeyViolation
      else
        .ok { s with
          content_blocks := s.content_blocks ++
            [⟨s.nextBlockId, inp.message_id, bi, bt, inp.text_content,
              inp.tool_name, inp.tool_input, inp.tool_use_id,
              tsv (inp.text_content.getD "")⟩],
          nextBlockId := s.nextBlockId + 1 }

/-- Model of `DELETE FROM sessions WHERE id = sid`.  `messages.session_id` is declared
`REFERENCES sessions(id) ON DELETE CASCADE` and `content_blocks.message_id`
is declared `REFERENCES messages(id) ON DELETE CASCADE`, so deleting a
session also deletes its messages and, transitively, their content blocks. -/
def deleteSession (sid : Nat) (s : Store) : Store :=
  let deadMsgIds :=
    (s.messages.filter (fun m => m.session_id = sid)).map (fun m => m.id)
  { s with
    sessions := s.sessions.filter (fun r => ¬ r.id = sid),
    messages := s.messages.filter (fun m => ¬ m.session_id = sid),
    content_blocks :=
      s.content_blocks.filter (fun b => ¬ deadMsgIds.contains b.message_id) }

/-- Model of `UPDATE content_blocks SET text_content = txt WHERE id = bid`.  Because
`content_tsvector` is `GENERATED ALWAYS ... STORED`, the engine recomputes it
from the new `text_content` in the same row write; the caller supplies no
vector. -/
def updateTextContent (tsv : String → String) (bid : Nat)
    (txt : Option String) (s : Store) : Store :=
  { s with
    content_blocks := s.content_blocks.map (fun b =>
      if b.id = bid then
        { b with text_content := txt, content_tsvector := tsv (txt.getD "") }
      else b) }

/-- Upsert into `import_metadata` (one row per `project_path`, the primary
key), as the importer's watermark write. -/
def upsertImportMetadata (path : String) (ts : Int) (s : Store) : Store :=
  if s.import_metadata.any (fun r => r.project_path = path) then
    { s with
      import_metadata := s.import_metadata.map (fun r =>
        if r.project_path = path then ⟨path, ts⟩ else r) }
  else
    { s with import_metadata := s.import_metadata ++ [⟨path, ts⟩] }

/-- Every statement a caller can run against the schema, for stating
store-wide invariants. -/
inductive DBOp where
  | insertSession (now : Int) (inp : SessionInsert)
  | insertMessage (inp : MessageInsert)
  | insertContentBlock (inp : ContentBlockInsert)
  | deleteSession (sid : Nat)
  | updateTextContent (bid : Nat) (txt : Option String)
  | upsertImportMetadata (path : String) (ts : Int)
deriving DecidableEq, Repr

/-- Run one statement; a statement that fails a constraint leaves the store
unchanged (the transaction aborts with no partial row). -/
def applyOp (tsv : String → String) (op : DBOp) (s : Store) : Store :=
  match op with
  | .insertSession now inp => ((insertSession now inp s).toOption).getD s
  | .insertMessage inp => ((insertMessage inp s).toOption).getD s
  | .insertContentBlock inp =>
      ((insertContentBlock tsv inp s).toOption).getD s
  | .deleteSession sid => deleteSession sid s
  | .updateTextContent bid txt => updateTextContent tsv bid txt s
  | .upsertImportMetadata path ts => upsertImportMetadata path ts s

/-- The `ORDER BY block_index ASC` comparison on content-block rows. -/
def blockLe (a b : ContentBlockRow) : Prop := a.block_index ≤ b.block_index

instance : DecidableRel blockLe := fun a b => Int.decLe a.block_index b.block_index

instance : IsTotal ContentBlockRow blockLe :=
  ⟨fun a b => Int.le_total a.block_index b.block_index⟩

instance : IsTrans ContentBlockRow blockLe := ⟨fun _ _ _ => Int.le_trans⟩

/-- Model of `SELECT * FROM content_blocks WHERE message_id = mid ORDER BY block_index
ASC`, the ordered-retrieval query the spec requires the schema to support. -/
def blocksForMessage (s : Store) (mid : Nat) : List ContentBlockRow :=
  List.insertionSort blockLe
    (s.content_blocks.filter (fun b => b.message_id = mid))

/-- Referential integrity of a store: every message's `session_id` resolves
to a session and every block's `message_id` resolves to a message — exactly
what the two foreign-key constraints of `SCHEMA` guarantee. -/
abbrev Wf (s : Store) : Prop :=
  (∀ m ∈ s.messages, ∃ r ∈ s.sessions, r.id = m.session_id) ∧
  (∀ b ∈ s.content_blocks, ∃ m ∈ s.messages, m.id = b.message_id)

/-- The generated-column invariant: every stored block's `content_tsvector`
is the engine's vectorization of `COALESCE(text_content, '')`. -/
abbrev TsvOk (tsv : String → String) (s : Store) : Prop :=
  ∀ b ∈ s.content_blocks, b.content_tsvector = tsv (b.text_content.getD "")

/-- A concrete stand-in for `to_tsvector('english', ·)`, used only to
instantiate theorems that hold for every vectorizer. -/
def demoTsv : String → String := fun t => t

/-- The session UUID from the spec's acceptance scenario. -/
def uuidA : String := "11111111-1111-1111-1111-111111111111"

/-- The scenario session insert: `{uuid: uuidA, project_path: "/repo/a"}`. -/
def sessInsA : SessionInsert :=
  ⟨some uuidA, some "/repo/a", none, none, none, none, none⟩

/-- The scenario message insert:
`{uuid: "m1", session_id: 1, type: "user", role: "user"}` (no token values
supplied). -/
def msgInsM1 : MessageInsert :=
  ⟨1, some "m1", some "user", some "user", none, none, none, none, none⟩

/-- The scenario content-block insert:
`{message_id: 1, block_index: 0, block_type: "text", text_content: "hello world"}`. -/
def blockIns0 : ContentBlockInsert :=
  ⟨1, some 0, some "text", some "hello world", none, none, none⟩

/-- Fresh database after inserting the scenario session. -/
def store1 : Store := applyOp demoTsv (.insertSession 0 sessInsA) emptyStore

/-- State `store1` after inserting the scenario message `m1`. -/
def store2 : Store := applyOp demoTsv (.insertMessage msgInsM1) store1

/-- State `store2` after inserting the scenario content block at index 0. -/
def store3 : Store := applyOp demoTsv (.insertContentBlock blockIns0) store2

/-- A second block for message 1 that reuses `block_index = 0`. -/
def blockInsDup : ContentBlockInsert :=
  ⟨1, some 0, some "text", some "dup", none, none, none⟩

/-- State `store3` after inserting a second block with the same
`(message_id, block_index)` pair as the first. -/
def store4 : Store := applyOp demoTsv (.insertContentBlock blockInsDup) store3

/-- State `store2` after inserting three blocks for message 1 in the physical
order `block_index = 2, 0, 1`. -/
def storeScrambled : Store :=
  applyOp demoTsv (.insertContentBlock ⟨1, some 1, some "text", some "c", none, none, none⟩)
    (applyOp demoTsv (.insertContentBlock ⟨1, some 0, some "text", some "b", none, none, none⟩)
      (applyOp demoTsv (.insertContentBlock ⟨1, some 2, some "text", some "a", none, none, none⟩) store2))

/-- Anatomy of a successful `INSERT INTO sessions`: the UUID was present and
parsed, it did not clash with any stored session, the new row (with its
defaults filled in) was appended, and the other tables were untouched. -/
theorem insertSession_ok_shape (now : Int) (inp : SessionInsert) (s s' : Store)
    (h : insertSession now inp s = .ok s') :
    ∃ u nu, inp.session_uuid = some u ∧ parseUuid u = some nu ∧
      (∀ r ∈ s.sessions, r.session_uuid ≠ nu) ∧
      s'.sessions = s.sessions ++
        [⟨s.nextSessionId, nu, inp.project_path, inp.summary,
          inp.created_at.getD now, inp.updated_at.getD now,
          inp.total_input_tokens.getD 0, inp.total_output_tokens.getD 0⟩] ∧
      s'.messages = s.messages ∧ s'.content_blocks = s.content_blocks := by
  cases h1 : inp.session_uuid with
  | none => simp [insertSession, h1] at h
  | some u =>
    simp only [insertSession, h1] at h
    cases h2 : parseUuid u with
    | none => simp [h2] at h
    | some nu =>
      simp only [h2] at h
      split at h
      · exact absurd h (by simp)
      · rename_i hany
        simp only [Except.ok.injEq] at h
        subst h
        refine ⟨u, nu, rfl, h2, ?_, rfl, rfl, rfl⟩
        intro r hr heq
        exact hany (List.any_eq_true.mpr ⟨r, hr, by simp [heq]⟩)

/-- Anatomy of a successful `INSERT INTO messages`: `type` was present, the
new row was appended with every omitted nullable column stored as NULL, and
the other tables were untouched. -/
theorem insertMessage_ok_shape (inp : MessageInsert) (s s' : Store)
    (h : insertMessage inp s = .ok s') :
    ∃ t, inp.type = some t ∧
      s'.sessions = s.sessions ∧ s'.content_blocks = s.content_blocks ∧
      s'.messages = s.messages ++
        [⟨s.nextMessageId, inp.session_id, inp.uuid, t, inp.role,
          inp.timestamp, inp.cwd, inp.input_tokens, inp.output_tokens,
          inp.version⟩] := by
  cases h1 : inp.type with
  | none => simp [insertMessage, h1] at h
  | some t =>
    simp only [insertMessage, h1] at h
    split at h
    · exact absurd h (by simp)
    · split at h
      · exact absurd h (by simp)
      · simp only [Except.ok.injEq] at h
        subst h
        exact ⟨t, rfl, rfl, rfl, rfl⟩

/-- Anatomy of a successful `INSERT INTO content_blocks`: `block_index` and
`block_type` were present, and the appended row's `content_tsvector` is the
engine-computed vector of `COALESCE(text_content, '')` — never a
caller-supplied value. -/
theorem insertContentBlock_ok_shape (tsv : String → String)
    (inp : ContentBlockInsert) (s s' : Store)
    (h : insertContentBlock tsv inp s = .ok s') :
    ∃ bi bt, inp.block_index = some bi ∧ inp.block_type = some bt ∧
      s'.sessions = s.sessions ∧ s'.messages = s.messages ∧
      s'.content_blocks = s.content_blocks ++
        [⟨s.nextBlockId, inp.message_id, bi, bt, inp.text_content,
          inp.tool_name, inp.tool_input, inp.tool_use_id,
          tsv (inp.text_content.getD "")⟩] := by
  cases h1 : inp.block_index with
  | none => simp [insertContentBlock, h1] at h
  | some bi =>
    simp only [insertContentBlock, h1] at h
    cases h2 : inp.block_type with
    | none => simp [h2] at h
    | some bt =>
      simp only [h2] at h
      split at h
      · exact absurd h (by simp)
      · simp only [Except.ok.injEq] at h
        subst h
        exact ⟨bi, bt, rfl, rfl, rfl, rfl, rfl⟩

/-- A well-formed `INSERT INTO messages` whose uuid triggers no unique
violation and whose `session_id` resolves appends exactly one row. -/
theorem insertMessage_ok_of (inp : MessageInsert) (s : Store) (t : String)
    (ht : inp.type = some t)
    (hnu : inp.uuid.isSome = false ∨
      (s.messages.any fun m => m.uuid = inp.uuid) = false)
    (hfk : (s.sessions.any fun r => r.id = inp.session_id) = true) :
    insertMessage inp s = .ok { s with
      messages := s.messages ++
        [⟨s.nextMessageId, inp.session_id, inp.uuid, t, inp.role,
          inp.timestamp, inp.cwd, inp.input_tokens, inp.output_tokens,
          inp.version⟩],
      nextMessageId := s.nextMessageId + 1 } := by
  have hc1 : (inp.uuid.isSome &&
      s.messages.any fun m => m.uuid = inp.uuid) = false := by
    cases hnu with
    | inl h => simp [h]
    | inr h => simp [h]
  simp only [insertMessage, ht]
  rw [if_neg (by simp [hc1]), if_neg (by simp [hfk])]

/-- C1: for every message already stored with a non-null uuid, inserting a
second (well-formed) message carrying the same uuid fails with a uniqueness
violation — the idempotency guard of `idx_messages_uuid_unique`. -/
theorem duplicate_message_uuid_rejected (s : Store) (u : String)
    (inp : MessageInsert) (ht : inp.type.isSome) (hu : inp.uuid = some u)
    (hm : ∃ m ∈ s.messages, m.uuid = some u) :
    insertMessage inp s = .error .uniqueViolation := by
  obtain ⟨t, ht⟩ := Option.isSome_iff_exists.mp ht
  obtain ⟨m, hm1, hm2⟩ := hm
  simp only [insertMessage, ht, hu]
  split
  · rfl
  · rename_i hcond
    exact absurd (by simp [List.any_eq_true]; exact ⟨m, hm1, hm2⟩) hcond

/-- Witness for C1: re-inserting the scenario message `m1` into the store
that already holds it reports a uniqueness violation. -/
theorem duplicate_message_uuid_rejected_witness :
    insertMessage msgInsM1 store2 = .error .uniqueViolation :=
  duplicate_message_uuid_rejected store2 "m1" msgInsM1 (by decide) (by decide)
    (by decide)

/-- C8: a message insert without a `type`, and a content-block insert without
a `block_type`, each fail with a NOT NULL violation, and the failed statement
leaves the store unchanged — no partial row. -/
theorem missing_required_field_rejected (tsv : String → String) (s : Store)
    (mi : MessageInsert) (ci : ContentBlockInsert)
    (hm : mi.type = none) (hc : ci.block_type = none) :
    insertMessage mi s = .error .notNullViolation ∧
    insertContentBlock tsv ci s = .error .notNullViolation ∧
    applyOp tsv (.insertMessage mi) s = s ∧
    applyOp tsv (.insertContentBlock ci) s = s := by
  have h1 : insertMessage mi s = .error .notNullViolation := by
    simp [insertMessage, hm]
  have h2 : insertContentBlock tsv ci s = .error .notNullViolation := by
    cases hbi : ci.block_index with
    | none => simp [insertContentBlock, hbi]
    | some bi => simp [insertContentBlock, hbi, hc]
  exact ⟨h1, h2, by simp [applyOp, h1, Except.toOption],
    by simp [applyOp, h2, Except.toOption]⟩

/-- Witness for C8: a typeless message and a typeless block against the
scenario store both report NOT NULL violations and leave the store as it
was. -/
theorem missing_required_field_rejected_witness :
    insertMessage ⟨1, none, none, none, none, none, none, none, none⟩ store2 =
      .error .notNullViolation ∧
    insertContentBlock demoTsv ⟨1, some 0, none, none, none, none, none⟩
      store2 = .error .notNullViolation ∧
    applyOp demoTsv
      (.insertMessage ⟨1, none, none, none, none, none, none, none, none⟩)
      store2 = store2 ∧
    applyOp demoTsv
      (.insertContentBlock ⟨1, some 0, none, none, none, none, none⟩)
      store2 = store2 :=
  missing_required_field_rejected demoTsv store2
    ⟨1, none, none, none, none, none, none, none, none⟩
    ⟨1, some 0, none, none, none, none, none⟩ rfl rfl

/-- C4: null-uuid messages are accepted and never collide under the partial
unique index: any two well-formed inserts with `uuid IS NULL` both succeed,
one after the other, and the first leaves the sessions table unchanged. -/
theorem null_uuid_messages_never_collide (s : Store) (i1 i2 : MessageInsert)
    (h1u : i1.uuid = none) (h2u : i2.uuid = none)
    (h1t : i1.type.isSome) (h2t : i2.type.isSome)
    (h1f : ∃ r ∈ s.sessions, r.id = i1.session_id)
    (h2f : ∃ r ∈ s.sessions, r.id = i2.session_id) :
    ∃ s1, insertMessage i1 s = .ok s1 ∧ s1.sessions = s.sessions ∧
      ∃ s2, insertMessage i2 s1 = .ok s2 := by
  obtain ⟨t1, ht1⟩ := Option.isSome_iff_exists.mp h1t
  obtain ⟨t2, ht2⟩ := Option.isSome_iff_exists.mp h2t
  have hfk1 : (s.sessions.any fun r => r.id = i1.session_id) = true := by
    obtain ⟨r, hr1, hr2⟩ := h1f
    exact List.any_eq_true.mpr ⟨r, hr1, by simp [hr2]⟩
  have hfk2 : (s.sessions.any fun r => r.id = i2.session_id) = true := by
    obtain ⟨r, hr1, hr2⟩ := h2f
    exact List.any_eq_true.mpr ⟨r, hr1, by simp [hr2]⟩
  refine ⟨_, insertMessage_ok_of i1 s t1 ht1 (Or.inl (by simp [h1u])) hfk1,
    rfl, _, insertMessage_ok_of i2 _ t2 ht2 (Or.inl (by simp [h2u])) hfk2⟩

/-- Witness for C4: two uuid-less messages inserted in sequence into the
scenario store both succeed. -/
theorem null_uuid_messages_never_collide_witness :
    ∃ s1, insertMessage ⟨1, none, some "system", none, none, none, none, none,
        none⟩ store2 = .ok s1 ∧ s1.sessions = store2.sessions ∧
      ∃ s2, insertMessage ⟨1, none, some "summary", none, none, none, none,
        none, none⟩ s1 = .ok s2 :=
  null_uuid_messages_never_collide store2
    ⟨1, none, some "system", none, none, none, none, none, none⟩
    ⟨1, none, some "summary", none, none, none, none, none, none⟩
    rfl rfl (by decide) (by decide) (by decide) (by decide)

/-- C2: cascade closure.  Deleting session `sid` from a referentially intact
store removes every message of that session and every content block of those
messages, and the result is again referentially intact — no orphan rows
remain in `messages` or `content_blocks`. -/
theorem deleteSession_cascade_closure (s : Store) (sid : Nat) (hwf : Wf s) :
    (∀ m ∈ (deleteSession sid s).messages, m.session_id ≠ sid) ∧
    (∀ b ∈ (deleteSession sid s).content_blocks,
      ∀ m ∈ s.messages, m.session_id = sid → b.message_id ≠ m.id) ∧
    Wf (deleteSession sid s) := by
  obtain ⟨hwm, hwb⟩ := hwf
  refine ⟨?_, ?_, ?_, ?_⟩
  · intro m hm
    simp only [deleteSession, List.mem_filter, decide_eq_true_eq] at hm
    exact hm.2
  · intro b hb m hm hmsid heq
    simp only [deleteSession, List.mem_filter, decide_eq_true_eq] at hb
    apply hb.2
    have : b.message_id ∈
        (s.messages.filter fun m => m.session_id = sid).map fun m => m.id :=
      List.mem_map.mpr ⟨m, List.mem_filter.mpr ⟨hm, by simp [hmsid]⟩, heq.symm⟩
    simpa using this
  · intro m hm
    simp only [deleteSession, List.mem_filter, decide_eq_true_eq] at hm
    obtain ⟨hm0, hmne⟩ := hm
    obtain ⟨r, hr, hrid⟩ := hwm m hm0
    refine ⟨r, List.mem_filter.mpr ⟨hr, ?_⟩, hrid⟩
    simp only [decide_eq_true_eq]
    exact fun hcontra => hmne (hrid ▸ hcontra)
  · intro b hb
    simp only [deleteSession, List.mem_filter, decide_eq_true_eq] at hb
    obtain ⟨hb0, hbdead⟩ := hb
    obtain ⟨m0, hm0, hm0id⟩ := hwb b hb0
    have hm0ne : m0.session_id ≠ sid := by
      intro hcontra
      apply hbdead
      have : b.message_id ∈
          (s.messages.filter fun m => m.session_id = sid).map fun m => m.id :=
        List.mem_map.mpr ⟨m0, List.mem_filter.mpr ⟨hm0, by simp [hcontra]⟩,
          hm0id⟩
      simpa using this
    exact ⟨m0, List.mem_filter.mpr ⟨hm0, by simp [hm0ne]⟩, hm0id⟩

/-- Witness for C2: deleting the scenario session from the store holding its
message and content block leaves no trace of either and keeps the store
referentially intact. -/
theorem deleteSession_cascade_closure_witness :
    (∀ m ∈ (deleteSession 1 store3).messages, m.session_id ≠ 1) ∧
    (∀ b ∈ (deleteSession 1 store3).content_blocks,
      ∀ m ∈ store3.messages, m.session_id = 1 → b.message_id ≠ m.id) ∧
    Wf (deleteSession 1 store3) :=
  deleteSession_cascade_closure store3 1 (by decide)

/-- C3: the generated-column invariant.  Whatever statement runs, every
stored content block's `content_tsvector` stays equal to the engine's
vectorization of `COALESCE(text_content, '')`: inserts compute it (callers
have no way to supply it), `UPDATE` of `text_content` recomputes it in the
same row write, and deletes and other statements cannot break it.  This
holds for every vectorizer `tsv`, i.e. the column is always derivable from
`text_content` alone. -/
theorem generated_tsvector_invariant (tsv : String → String) (op : DBOp)
    (s : Store) (h : TsvOk tsv s) : TsvOk tsv (applyOp tsv op s) := by
  cases op with
  | insertSession now inp =>
    cases hres : insertSession now inp s with
    | error e => simpa [applyOp, hres, Except.toOption] using h
    | ok s' =>
      obtain ⟨u, nu, _, _, _, _, _, hcb⟩ :=
        insertSession_ok_shape now inp s s' hres
      have heq : applyOp tsv (.insertSession now inp) s = s' := by
        simp [applyOp, hres, Except.toOption]
      rw [heq]
      intro b hb
      exact h b (hcb ▸ hb)
  | insertMessage inp =>
    cases hres : insertMessage inp s with
    | error e => simpa [applyOp, hres, Except.toOption] using h
    | ok s' =>
      obtain ⟨t, _, _, hcb, _⟩ := insertMessage_ok_shape inp s s' hres
      have heq : applyOp tsv (.insertMessage inp) s = s' := by
        simp [applyOp, hres, Except.toOption]
      rw [heq]
      intro b hb
      exact h b (hcb ▸ hb)
  | insertContentBlock inp =>
    cases hres : insertContentBlock tsv inp s with
    | error e => simpa [applyOp, hres, Except.toOption] using h
    | ok s' =>
      obtain ⟨bi, bt, _, _, _, _, hcb⟩ :=
        insertContentBlock_ok_shape tsv inp s s' hres
      have heq : applyOp tsv (.insertContentBlock inp) s = s' := by
        simp [applyOp, hres, Except.toOption]
      rw [heq]
      intro b hb
      rw [hcb] at hb
      rcases List.mem_append.mp hb with h1 | h2
      · exact h b h1
      · rw [List.mem_singleton.mp h2]
  | deleteSession sid =>
    intro b hb
    simp only [applyOp, deleteSession, List.mem_filter] at hb
    exact h b hb.1
  | updateTextContent bid txt =>
    intro b hb
    simp only [applyOp, updateTextContent, List.mem_map] at hb
    obtain ⟨a, ha, hab⟩ := hb
    by_cases hid : a.id = bid
    · rw [← hab]
      simp [hid]
    · rw [← hab]
      simp only [hid, if_false]
      exact h a ha
  | upsertImportMetadata path ts =>
    intro b hb
    simp only [applyOp, upsertImportMetadata] at hb
    split at hb <;> exact h b hb

/-- Witness for C3: the scenario store (one block, vector already computed)
keeps the invariant after its `text_content` is updated. -/
theorem generated_tsvector_invariant_witness :
    TsvOk demoTsv
      (applyOp demoTsv (.updateTextContent 1 (some "goodbye")) store3) :=
  generated_tsvector_invariant demoTsv (.updateTextContent 1 (some "goodbye"))
    store3 (by decide)

/-- C5: `SCHEMA` carries no unique constraint on
`(message_id, block_index)`: a second block with the same owner and the same
index as an existing one is accepted, leaving two rows with identical
`(message_id, block_index)` pairs. -/
theorem no_unique_constraint_on_block_index :
    insertContentBlock demoTsv blockInsDup store3 = .ok store4 ∧
    (store4.content_blocks.filter
      (fun b => b.message_id == 1 && b.block_index == 0)).length = 2 := by
  exact ⟨rfl, rfl⟩

/-- Counterexample to C6 as stated: the scenario message is inserted without
token values, yet the stored row has `input_tokens = NULL` and
`output_tokens = NULL`, not 0 — `messages.input_tokens INT` and
`messages.output_tokens INT` carry no `DEFAULT 0` (only the `sessions`
totals do). -/
theorem message_token_defaults_counterexample :
    insertMessage msgInsM1 store1 = .ok store2 ∧
    store2.messages.map (fun m => m.input_tokens) = [none] ∧
    store2.messages.map (fun m => m.output_tokens) = [none] ∧
    ¬ (∀ m ∈ store2.messages,
        m.input_tokens = some 0 ∧ m.output_tokens = some 0) := by
  refine ⟨rfl, rfl, rfl, ?_⟩
  decide

/-- C6 (amended): a session inserted without token values gets
`total_input_tokens = 0` and `total_output_tokens = 0` (the DDL defaults),
while a message inserted without token values stores NULL in `input_tokens`
and `output_tokens` — only the session totals have the zero default. -/
theorem token_defaults_amended (now : Int) (si : SessionInsert)
    (mi : MessageInsert) (s s1 t t1 : Store)
    (hsi : si.total_input_tokens = none) (hso : si.total_output_tokens = none)
    (hs : insertSession now si s = .ok s1)
    (hmi : mi.input_tokens = none) (hmo : mi.output_tokens = none)
    (hm : insertMessage mi t = .ok t1) :
    (∃ r, s1.sessions.getLast? = some r ∧ r.total_input_tokens = 0 ∧
      r.total_output_tokens = 0) ∧
    (∃ m, t1.messages.getLast? = some m ∧ m.input_tokens = none ∧
      m.output_tokens = none) := by
  obtain ⟨u, nu, _, _, _, hsess, _, _⟩ := insertSession_ok_shape now si s s1 hs
  obtain ⟨tt, _, _, _, hmsg⟩ := insertMessage_ok_shape mi t t1 hm
  constructor
  · rw [hsess]
    refine ⟨_, List.getLast?_concat _, ?_, ?_⟩
    · simp [hsi]
    · simp [hso]
  · rw [hmsg]
    refine ⟨_, List.getLast?_concat _, ?_, ?_⟩
    · simp [hmi]
    · simp [hmo]

/-- Witness for the amended C6: the scenario session and message, both
inserted without token values, end up with zero totals and NULL message
tokens respectively. -/
theorem token_defaults_amended_witness :
    (∃ r, store1.sessions.getLast? = some r ∧ r.total_input_tokens = 0 ∧
      r.total_output_tokens = 0) ∧
    (∃ m, store2.messages.getLast? = some m ∧ m.input_tokens = none ∧
      m.output_tokens = none) :=
  token_defaults_amended 0 sessInsA msgInsM1 emptyStore store1 store1 store2
    rfl rfl rfl rfl rfl rfl

/-- C10: `messages.uuid` is a plain `TEXT` column while
`sessions.session_uuid` is `UUID`-typed: one and the same non-UUID string is
rejected by the session insert as a datatype error, yet accepted verbatim as
a message uuid. -/
theorem message_uuid_text_session_uuid_typed (now : Int) (u : String)
    (si : SessionInsert) (mi : MessageInsert) (s : Store)
    (hu : isUuidFormat u = false) (hsu : si.session_uuid = some u)
    (hmu : mi.uuid = some u) (hmt : mi.type.isSome)
    (hfk : ∃ r ∈ s.sessions, r.id = mi.session_id)
    (hfresh : ∀ m ∈ s.messages, m.uuid ≠ some u) :
    insertSession now si s = .error .invalidTextRepresentation ∧
    ∃ s', insertMessage mi s = .ok s' := by
  have hpu : parseUuid u = none := by
    cases hpp : parseUuid u with
    | none => rfl
    | some x => rw [isUuidFormat, hpp] at hu; simp at hu
  constructor
  · simp [insertSession, hsu, hpu]
  · obtain ⟨t, ht⟩ := Option.isSome_iff_exists.mp hmt
    have hfk2 : (s.sessions.any fun r => r.id = mi.session_id) = true := by
      obtain ⟨r, hr1, hr2⟩ := hfk
      exact List.any_eq_true.mpr ⟨r, hr1, by simp [hr2]⟩
    have hany : (s.messages.any fun m => m.uuid = mi.uuid) = false := by
      rw [List.any_eq_false]
      intro m hmem
      simp only [hmu, decide_eq_true_eq]
      exact hfresh m hmem
    exact ⟨_, insertMessage_ok_of mi s t ht (Or.inr hany) hfk2⟩

/-- Witness for C10: the string "m1" is not UUID input, so it cannot become
a `session_uuid`, yet the scenario message stores it as its uuid. -/
theorem message_uuid_text_session_uuid_typed_witness :
    insertSession 0 ⟨some "m1", none, none, none, none, none, none⟩ store1 =
      .error .invalidTextRepresentation ∧
    ∃ s', insertMessage msgInsM1 store1 = .ok s' :=
  message_uuid_text_session_uuid_typed 0 "m1"
    ⟨some "m1", none, none, none, none, none, none⟩ msgInsM1 store1
    (by decide) rfl rfl (by decide) (by decide) (by decide)

/-- C7: ordered retrieval.  If the blocks stored for a message carry the
indices 0..n-1 in any physical order, then retrieving them
`ORDER BY block_index ASC` returns exactly the stored blocks (a permutation
of the filtered rows) with their indices in the order 0, 1, ..., n-1 — the
original message structure, independent of insertion order. -/
theorem ordered_retrieval_by_block_index (s : Store) (mid : Nat) (n : Nat)
    (hperm : ((s.content_blocks.filter fun b => b.message_id = mid).map
      (fun b => b.block_index)).Perm ((List.range n).map Int.ofNat)) :
    (blocksForMessage s mid).Perm
      (s.content_blocks.filter fun b => b.message_id = mid) ∧
    (blocksForMessage s mid).map (fun b => b.block_index) =
      (List.range n).map Int.ofNat := by
  have h1 : (blocksForMessage s mid).Perm
      (s.content_blocks.filter fun b => b.message_id = mid) :=
    List.perm_insertionSort _ _
  refine ⟨h1, ?_⟩
  have hs : List.Sorted blockLe (blocksForMessage s mid) :=
    List.sorted_insertionSort _ _
  have hms : List.Sorted (· ≤ ·)
      ((blocksForMessage s mid).map fun b => b.block_index) := by
    rw [List.Sorted, List.pairwise_map]
    exact hs
  have hrs : List.Sorted (· ≤ ·) ((List.range n).map Int.ofNat) := by
    rw [List.Sorted, List.pairwise_map]
    exact (List.pairwise_lt_range n).imp (fun h => Int.ofNat_le.mpr h.le)
  exact List.eq_of_perm_of_sorted ((h1.map _).trans hperm) hms hrs

/-- Witness for C7: three blocks inserted for the scenario message in the
physical order 2, 0, 1 come back from the ordered retrieval as 0, 1, 2. -/
theorem ordered_retrieval_by_block_index_witness :
    (blocksForMessage storeScrambled 1).Perm
      (storeScrambled.content_blocks.filter fun b => b.message_id = 1) ∧
    (blocksForMessage storeScrambled 1).map (fun b => b.block_index) =
      (List.range 3).map Int.ofNat :=
  ordered_retrieval_by_block_index storeScrambled 1 3 (by decide)

/-- C9: `sessions.session_uuid UUID UNIQUE NOT NULL`.  Inserting a session
whose (normalized) UUID is already stored fails with a uniqueness violation;
inserting one with no `session_uuid` fails with a NOT NULL violation; and
pairwise distinctness of the stored `session_uuid`s is preserved by every
statement, so any two distinct sessions in the store always differ in
`session_uuid`. -/
theorem session_uuid_unique_and_required (now : Int) (s : Store)
    (i1 i2 : SessionInsert) (u nu : String)
    (h1 : i1.session_uuid = some u) (hp : parseUuid u = some nu)
    (hex : ∃ r ∈ s.sessions, r.session_uuid = nu)
    (h2 : i2.session_uuid = none)
    (tsv : String → String) (op : DBOp)
    (hdist : s.sessions.Pairwise fun a b => a.session_uuid ≠ b.session_uuid) :
    insertSession now i1 s = .error .uniqueViolation ∧
    insertSession now i2 s = .error .notNullViolation ∧
    (applyOp tsv op s).sessions.Pairwise
      (fun a b => a.session_uuid ≠ b.session_uuid) := by
  refine ⟨?_, ?_, ?_⟩
  · simp only [insertSession, h1, hp]
    split
    · rfl
    · rename_i hc
      obtain ⟨r, hr1, hr2⟩ := hex
      exact absurd (by simp [List.any_eq_true]; exact ⟨r, hr1, hr2⟩) hc
  · simp [insertSession, h2]
  · cases op with
    | insertSession now2 inp =>
      cases hres : insertSession now2 inp s with
      | error e => simpa [applyOp, hres, Except.toOption] using hdist
      | ok s2 =>
        obtain ⟨u2, nu2, _, _, hfresh, hsess, _, _⟩ :=
          insertSession_ok_shape now2 inp s s2 hres
        have heq : applyOp tsv (.insertSession now2 inp) s = s2 := by
          simp [applyOp, hres, Except.toOption]
        rw [heq, hsess, List.pairwise_append]
        refine ⟨hdist, List.pairwise_singleton _ _, ?_⟩
        intro a ha b hb
        rw [List.mem_singleton] at hb
        subst hb
        exact hfresh a ha
    | insertMessage inp =>
      cases hres : insertMessage inp s with
      | error e => simpa [applyOp, hres, Except.toOption] using hdist
      | ok s2 =>
        obtain ⟨t, _, hsess, _, _⟩ := insertMessage_ok_shape inp s s2 hres
        have heq : applyOp tsv (.insertMessage inp) s = s2 := by
          simp [applyOp, hres, Except.toOption]
        rw [heq, hsess]
        exact hdist
    | insertContentBlock inp =>
      cases hres : insertContentBlock tsv inp s with
      | error e => simpa [applyOp, hres, Except.toOption] using hdist
      | ok s2 =>
        obtain ⟨bi, bt, _, _, hsess, _, _⟩ :=
          insertContentBlock_ok_shape tsv inp s s2 hres
        have heq : applyOp tsv (.insertContentBlock inp) s = s2 := by
          simp [applyOp, hres, Except.toOption]
        rw [heq, hsess]
        exact hdist
    | deleteSession sid =>
      simp only [applyOp, deleteSession]
      exact List.Pairwise.sublist (List.filter_sublist _) hdist
    | updateTextContent bid txt =>
      simpa [applyOp, updateTextContent] using hdist
    | upsertImportMetadata path ts =>
      simp only [applyOp, upsertImportMetadata]
      split <;> exact hdist

/-- Witness for C9: re-inserting the scenario session's UUID fails as a
duplicate, a UUID-less session insert fails the NOT NULL constraint, and a
subsequent statement keeps the stored UUIDs pairwise distinct. -/
theorem session_uuid_unique_and_required_witness :
    insertSession 0 sessInsA store1 = .error .uniqueViolation ∧
    insertSession 0 ⟨none, none, none, none, none, none, none⟩ store1 =
      .error .notNullViolation ∧
    (applyOp demoTsv (.deleteSession 1) store1).sessions.Pairwise
      (fun a b => a.session_uuid ≠ b.session_uuid) :=
  session_uuid_unique_and_required 0 store1 sessInsA
    ⟨none, none, none, none, none, none, none⟩ uuidA
    "11111111111111111111111111111111" rfl (by decide) (by decide) rfl
    demoTsv (.deleteSession 1) (by decide)
